import Mathlib

/-!
Verification of `src/ast_parser.py`, a small graph-description generator.

The Python script keeps one piece of mutable state, the global integer
`handle` (the identifier counter).  We embed every function in explicit
state-passing style: a function that in Python may touch the global takes
the current `handle : Nat` and returns its result paired with the new
`handle`.  `handle` is a Python nonnegative int that is only ever
incremented, so `Nat` is a faithful carrier; Python's `str` on a
nonnegative int is its decimal representation, modelled by `Nat.repr`.
-/

namespace AstParser

/-- Python `str(handle)` for the nonnegative counter: decimal representation. -/
def pyStr (n : Nat) : String := Nat.repr n

/-- Embedding of `createNode(label)`: reads the global `handle`, builds
`variable = "x" + str(handle)`, increments the global, and returns the pair
`[variable, variable + " [label=\"" + label + "\",shape=circle]\n"]`. -/
def createNode (label : String) (handle : Nat) : (String × String) × Nat :=
  let v := "x" ++ pyStr handle
  ((v, v ++ " [label=\"" ++ label ++ "\",shape=circle]\n"), handle + 1)

/-- Embedding of `createChild(parent, child, options = "")`: the body never
mentions the global `handle`, so the state is returned unchanged. -/
def createChild (parent child : String) (handle : Nat) (options : String := "") :
    String × Nat :=
  (parent ++ " -> " ++ child ++ options ++ "\n", handle)

/-- Embedding of `createWrapper(code)`: the body never mentions the global
`handle`, so the state is returned unchanged. -/
def createWrapper (code : String) (handle : Nat) : String × Nat :=
  ("strict digraph X \x7b\n" ++ code ++ "\x7d", handle)

/-- Embedding of `simpleAST()`: five `createNode` calls, then the string is
assembled by concatenating the five declaration fragments and four
`createChild` fragments, threading the global `handle` through every call. -/
def simpleAST (handle : Nat) : String × Nat :=
  let (minusNode, h1) := createNode "-" handle
  let (plusNode, h2) := createNode "+" h1
  let (oneNode, h3) := createNode "1" h2
  let (twoNode, h4) := createNode "2" h3
  let (threeNode, h5) := createNode "3" h4
  let s1 := minusNode.2 ++ plusNode.2 ++ oneNode.2
  let s2 := s1 ++ twoNode.2 ++ threeNode.2
  let (e1, h6) := createChild minusNode.1 oneNode.1 h5
  let s3 := s2 ++ e1
  let (e2, h7) := createChild minusNode.1 twoNode.1 h6
  let s4 := s3 ++ e2
  let (e3, h8) := createChild plusNode.1 minusNode.1 h7
  let s5 := s4 ++ e3
  let (e4, h9) := createChild plusNode.1 threeNode.1 h8
  (s5 ++ e4, h9)

/-- Embedding of `getCode()`: `print createWrapper(simpleAST())`.  The first
component is the byte string written to standard output; Python 2's `print`
statement appends one newline after the printed value. -/
def getCode (handle : Nat) : String × Nat :=
  let (s, h1) := simpleAST handle
  let (doc, h2) := createWrapper s h1
  (doc ++ "\n", h2)

/-! Specification-side helpers used to state the claims. -/

/-- The fixed document header emitted by `createWrapper`. -/
def header : String := "strict digraph X \x7b\n"

/-- The identifier `createNode` hands out when the counter reads `n`. -/
def nodeId (n : Nat) : String := "x" ++ pyStr n

/-- One node-declaration line, without its terminating newline. -/
def nodeDeclLine (ident label : String) : String :=
  ident ++ " [label=\"" ++ label ++ "\",shape=circle]"

/-- One edge line, without options and without its terminating newline. -/
def edgeLine (parent child : String) : String :=
  parent ++ " -> " ++ child

/-- A line turned into an output fragment by appending the newline. -/
def asFragment (line : String) : String := line ++ "\n"

/-- The nine lines of the example tree when the counter starts at `c`:
five node declarations in creation order, then the four edges. -/
def simpleLines (c : Nat) : List String :=
  [nodeDeclLine (nodeId c) "-",
   nodeDeclLine (nodeId (c + 1)) "+",
   nodeDeclLine (nodeId (c + 2)) "1",
   nodeDeclLine (nodeId (c + 3)) "2",
   nodeDeclLine (nodeId (c + 4)) "3",
   edgeLine (nodeId c) (nodeId (c + 2)),
   edgeLine (nodeId c) (nodeId (c + 3)),
   edgeLine (nodeId (c + 1)) (nodeId c),
   edgeLine (nodeId (c + 1)) (nodeId (c + 4))]

/-- The nine newline-terminated fragments of the example tree. -/
def simpleFrags (c : Nat) : List String := (simpleLines c).map asFragment

/-- Number of newline characters in a string. -/
def newlineCount (s : String) : Nat := s.data.count '\n'

/-- The five identifiers handed out by the five `createNode` calls of a
`simpleAST` run that starts with the counter at `c`. -/
def createdIds (c : Nat) : List String :=
  [nodeId c, nodeId (c + 1), nodeId (c + 2), nodeId (c + 3), nodeId (c + 4)]

/-- The ordered (parent, child) identifier pairs of the four edges emitted by
`simpleAST` when the counter starts at `c`. -/
def edgePairs (c : Nat) : List (String × String) :=
  [(nodeId c, nodeId (c + 2)), (nodeId c, nodeId (c + 3)),
   (nodeId (c + 1), nodeId c), (nodeId (c + 1), nodeId (c + 4))]

/-- The canonical document of spec section 6, byte for byte. -/
def specDocument : String :=
  "strict digraph X \x7b\nx0 [label=\"-\",shape=circle]\nx1 [label=\"+\",shape=circle]\nx2 [label=\"1\",shape=circle]\nx3 [label=\"2\",shape=circle]\nx4 [label=\"3\",shape=circle]\nx0 -> x2\nx0 -> x3\nx1 -> x0\nx1 -> x4\n\x7d"

/-! Decimal-representation facts about `Nat.repr`, needed because node
identifiers embed the counter via `str`. -/

/-- The decimal digit list of `n`, most significant first. -/
def digitsRep (n : Nat) : List Char :=
  if _h : n < 10 then [Nat.digitChar n]
  else digitsRep (n / 10) ++ [Nat.digitChar (n % 10)]
decreasing_by exact Nat.div_lt_self (by omega) (by omega)

theorem digitsRep_lt {n : Nat} (h : n < 10) : digitsRep n = [Nat.digitChar n] := by
  unfold digitsRep
  simp [h]

theorem digitsRep_ge {n : Nat} (h : ¬ n < 10) :
    digitsRep n = digitsRep (n / 10) ++ [Nat.digitChar (n % 10)] := by
  conv_lhs => unfold digitsRep
  simp [h]

theorem digitsRep_ne_nil (n : Nat) : digitsRep n ≠ [] := by
  by_cases h : n < 10
  · rw [digitsRep_lt h]; simp
  · rw [digitsRep_ge h]; simp

theorem toDigitsCore_eq_digitsRep :
    ∀ (fuel n : Nat) (ds : List Char), n < fuel →
      Nat.toDigitsCore 10 fuel n ds = digitsRep n ++ ds := by
  intro fuel
  induction fuel with
  | zero => intro n ds h; omega
  | succ f ih =>
    intro n ds h
    simp only [Nat.toDigitsCore]
    by_cases h0 : n / 10 = 0
    · have hn : n < 10 := by omega
      rw [if_pos h0, digitsRep_lt hn, Nat.mod_eq_of_lt hn]
      rfl
    · have hn : ¬ n < 10 := by omega
      have hlt : n / 10 < f := by omega
      rw [if_neg h0, ih (n / 10) _ hlt, digitsRep_ge hn, List.append_assoc]
      rfl

theorem repr_eq_digitsRep (n : Nat) : Nat.repr n = (digitsRep n).asString := by
  show (Nat.toDigits 10 n).asString = (digitsRep n).asString
  rw [Nat.toDigits, toDigitsCore_eq_digitsRep (n + 1) n [] (by omega), List.append_nil]

theorem asString_injective {l l' : List Char} (h : l.asString = l'.asString) :
    l = l' :=
  congrArg String.data h

theorem digitChar_inj_below_ten :
    ∀ a < 10, ∀ b < 10, Nat.digitChar a = Nat.digitChar b → a = b := by decide

theorem digitsRep_injective : ∀ n m : Nat, digitsRep n = digitsRep m → n = m := by
  intro n
  induction n using Nat.strong_induction_on with
  | _ n ih =>
    intro m h
    by_cases hn : n < 10 <;> by_cases hm : m < 10
    · rw [digitsRep_lt hn, digitsRep_lt hm] at h
      exact digitChar_inj_below_ten n hn m hm (by simpa using h)
    · rw [digitsRep_lt hn, digitsRep_ge hm] at h
      have hlen := congrArg List.length h
      simp at hlen
      exact absurd hlen (digitsRep_ne_nil (m / 10))
    · rw [digitsRep_ge hn, digitsRep_lt hm] at h
      have hlen := congrArg List.length h
      simp at hlen
      exact absurd hlen (digitsRep_ne_nil (n / 10))
    · rw [digitsRep_ge hn, digitsRep_ge hm] at h
      obtain ⟨h1, h2⟩ := List.append_inj' h rfl
      have hdiv : n / 10 = m / 10 :=
        ih (n / 10) (Nat.div_lt_self (by omega) (by omega)) (m / 10) h1
      have hmod : n % 10 = m % 10 :=
        digitChar_inj_below_ten (n % 10) (Nat.mod_lt _ (by omega)) (m % 10)
          (Nat.mod_lt _ (by omega)) (by simpa using h2)
      omega

theorem repr_injective {n m : Nat} (h : Nat.repr n = Nat.repr m) : n = m :=
  digitsRep_injective n m (asString_injective (by rwa [← repr_eq_digitsRep, ← repr_eq_digitsRep]))

theorem digitChar_ne_newline (n : Nat) : Nat.digitChar n ≠ '\n' := by
  rcases Nat.lt_or_ge n 16 with h | h
  · interval_cases n <;> decide
  · simp only [Nat.digitChar]
    repeat rw [if_neg (by omega)]
    decide

theorem digitsRep_no_newline : ∀ n : Nat, ∀ ch ∈ digitsRep n, ch ≠ '\n' := by
  intro n
  induction n using Nat.strong_induction_on with
  | _ n ih =>
    intro ch hch
    by_cases hn : n < 10
    · rw [digitsRep_lt hn] at hch
      simp at hch
      rw [hch]; exact digitChar_ne_newline n
    · rw [digitsRep_ge hn] at hch
      rcases List.mem_append.mp hch with h | h
      · exact ih (n / 10) (Nat.div_lt_self (by omega) (by omega)) ch h
      · simp at h
        rw [h]; exact digitChar_ne_newline (n % 10)

theorem pyStr_no_newline (n : Nat) : newlineCount (pyStr n) = 0 := by
  rw [newlineCount, pyStr, repr_eq_digitsRep]
  exact List.count_eq_zero.mpr fun hmem =>
    digitsRep_no_newline n '\n' hmem rfl

/-! Shared structural lemmas about the embedded operations. -/

theorem newlineCount_append (s t : String) :
    newlineCount (s ++ t) = newlineCount s + newlineCount t := by
  simp [newlineCount, String.data_append, List.count_append]

theorem newlineCount_nodeId (n : Nat) : newlineCount (nodeId n) = 0 := by
  rw [nodeId, newlineCount_append, pyStr_no_newline]
  decide

theorem simpleAST_eq (c : Nat) :
    simpleAST c = (String.join (simpleFrags c), c + 5) := by
  simp [simpleAST, createNode, createChild, simpleFrags, simpleLines, asFragment,
        nodeDeclLine, edgeLine, nodeId, String.join, String.append_assoc]

theorem createNode_eq (label : String) (c : Nat) :
    createNode label c = ((nodeId c, asFragment (nodeDeclLine (nodeId c) label)), c + 1) := by
  simp [createNode, nodeId, asFragment, nodeDeclLine, String.append_assoc]

/-! The claims. -/

set_option maxRecDepth 4000 in
/-- C1: with the counter freshly initialized to 0, the program writes to
standard output exactly the canonical document of spec section 6, byte for
byte — the header line, the five node-declaration lines x0 through x4, the
four edge lines, each terminated by a newline, then the closing brace (the
trailing newline after the brace is the line terminator that Python 2's
`print` statement itself appends to the printed document). -/
theorem c1_end_to_end_output :
    (createWrapper (simpleAST 0).1 (simpleAST 0).2).1 = specDocument ∧
    (getCode 0).1 = specDocument ++ "\n" := by
  constructor
  · decide
  · decide

/-- C2: for every starting counter value, `simpleAST` returns the
concatenation of exactly nine fragments in order — the five node-declaration
fragments for labels "-", "+", "1", "2", "3" in creation order, then the four
edge fragments (minus, one), (minus, two), (plus, minus), (plus, three) —
and each fragment is exactly one newline-terminated line, so the output
contains exactly 5 node-declaration lines followed by exactly 4 edge lines. -/
theorem c2_nine_fragments (c : Nat) :
    (simpleAST c).1 = String.join (simpleFrags c) ∧
    simpleFrags c =
      [asFragment (nodeDeclLine (nodeId c) "-"),
       asFragment (nodeDeclLine (nodeId (c + 1)) "+"),
       asFragment (nodeDeclLine (nodeId (c + 2)) "1"),
       asFragment (nodeDeclLine (nodeId (c + 3)) "2"),
       asFragment (nodeDeclLine (nodeId (c + 4)) "3"),
       asFragment (edgeLine (nodeId c) (nodeId (c + 2))),
       asFragment (edgeLine (nodeId c) (nodeId (c + 3))),
       asFragment (edgeLine (nodeId (c + 1)) (nodeId c)),
       asFragment (edgeLine (nodeId (c + 1)) (nodeId (c + 4)))] ∧
    ∀ l ∈ simpleLines c, newlineCount l = 0 := by
  refine ⟨(congrArg Prod.fst (simpleAST_eq c) : _), rfl, ?_⟩
  intro l hl
  simp only [simpleLines, List.mem_cons, List.not_mem_nil, or_false] at hl
  rcases hl with rfl | rfl | rfl | rfl | rfl | rfl | rfl | rfl | rfl <;>
    simp [nodeDeclLine, edgeLine, newlineCount_append, newlineCount_nodeId] <;>
    decide

/-- C3: for every label and counter state `c`, `createNode` returns the
identifier "x" followed by the decimal counter value read before the
increment, leaves the counter at `c + 1`, and returns the declaration
fragment that is the single line `<identifier> [label="<label>",shape=circle]`
followed by a newline; for label "foo" the fragment contains the exact
substrings `label="foo"` and `shape=circle`. -/
theorem c3_createNode_spec (label : String) (c : Nat) :
    createNode label c = ((nodeId c, asFragment (nodeDeclLine (nodeId c) label)), c + 1) ∧
    (∃ a b, (createNode "foo" c).1.2 = a ++ "label=\"foo\"" ++ b) ∧
    (∃ a b, (createNode "foo" c).1.2 = a ++ "shape=circle" ++ b) := by
  refine ⟨createNode_eq label c, ⟨nodeId c ++ " [", ",shape=circle]\n", ?_⟩,
    ⟨nodeId c ++ " [label=\"foo\",", "]\n", ?_⟩⟩ <;>
    simp [createNode, nodeId, String.append_assoc]

/-- C4: for every body string, `createWrapper` returns exactly the fixed
header `strict digraph X {` plus newline, then the body, then the single
closing brace, and stripping the header prefix and the final brace recovers
the body exactly. -/
theorem c4_wrapper_roundtrip (s : String) (h : Nat) :
    createWrapper s h = (header ++ s ++ "\x7d", h) ∧
    ((createWrapper s h).1.data.drop header.length).dropLast = s.data := by
  refine ⟨rfl, ?_⟩
  have hdata : (createWrapper s h).1.data = header.data ++ (s.data ++ [ '\x7d' ]) := by
    simp [createWrapper, header, String.data_append]
  rw [hdata, List.drop_left' (show header.data.length = header.length from rfl),
    List.dropLast_concat]

/-- C5: `createChild` returns exactly `parent ++ " -> " ++ child ++ options
++ "\n"` with the options string inserted verbatim, the options argument
defaults to the empty string, and `createChild("a", "b", " [style=dashed]")`
produces exactly `"a -> b [style=dashed]\n"`. -/
theorem c5_createChild_format (p ch o : String) (h : Nat) :
    (createChild p ch h o).1 = p ++ " -> " ++ ch ++ o ++ "\n" ∧
    (createChild p ch h).1 = p ++ " -> " ++ ch ++ "\n" ∧
    (createChild "a" "b" 0 " [style=dashed]").1 = "a -> b [style=dashed]\n" := by
  refine ⟨rfl, ?_, by decide⟩
  simp [createChild]

/-- C6: identifier generation is injective within a run — two `createNode`
calls made at distinct counter states return distinct identifiers, whatever
their labels — and each call advances the counter by exactly 1 (the counter
is never reset or decremented: every state change is this increment). -/
theorem c6_identifier_injective (l1 l2 : String) (c1 c2 : Nat) (hne : c1 ≠ c2) :
    (createNode l1 c1).1.1 ≠ (createNode l2 c2).1.1 ∧
    (createNode l1 c1).2 = c1 + 1 := by
  refine ⟨fun heq => hne ?_, rfl⟩
  apply repr_injective
  have hd := congrArg String.data heq
  simp only [createNode, String.data_append] at hd
  exact String.ext (by simpa [pyStr] using hd)

/-- Witness for C6 at labels "a", "b" and counter states 0 and 1. -/
theorem c6_identifier_injective_witness :
    (0 : Nat) ≠ 1 ∧
      ((createNode "a" 0).1.1 ≠ (createNode "b" 1).1.1 ∧
       (createNode "a" 0).2 = 0 + 1) :=
  ⟨by decide, c6_identifier_injective "a" "b" 0 1 (by decide)⟩

set_option maxRecDepth 4000 in
/-- Witness for C2 at counter 0 and the first node-declaration line. -/
theorem c2_nine_fragments_witness :
    nodeDeclLine (nodeId 0) "-" ∈ simpleLines 0 ∧
      newlineCount (nodeDeclLine (nodeId 0) "-") = 0 :=
  ⟨by simp [simpleLines], (c2_nine_fragments 0).2.2 _ (by simp [simpleLines])⟩

set_option maxRecDepth 4000 in
/-- C7: running `simpleAST` twice in one process (counter fresh at 0) leaves
the counter at 5 after the first call, and the two returned documents are the
same nine-fragment template instantiated at offsets 0 and 5: the second is
identical to the first except that every identifier's numeric suffix is
offset by 5, the counter value reached after the first call — concretely the
first uses x0 through x4 and the second x5 through x9. -/
theorem c7_second_run_offset :
    (simpleAST 0).2 = 5 ∧
    (simpleAST 0).1 = String.join (simpleFrags 0) ∧
    (simpleAST (simpleAST 0).2).1 = String.join (simpleFrags 5) ∧
    (simpleAST 0).1 =
      "x0 [label=\"-\",shape=circle]\nx1 [label=\"+\",shape=circle]\nx2 [label=\"1\",shape=circle]\nx3 [label=\"2\",shape=circle]\nx4 [label=\"3\",shape=circle]\nx0 -> x2\nx0 -> x3\nx1 -> x0\nx1 -> x4\n" ∧
    (simpleAST (simpleAST 0).2).1 =
      "x5 [label=\"-\",shape=circle]\nx6 [label=\"+\",shape=circle]\nx7 [label=\"1\",shape=circle]\nx8 [label=\"2\",shape=circle]\nx9 [label=\"3\",shape=circle]\nx5 -> x7\nx5 -> x8\nx6 -> x5\nx6 -> x9\n" := by
  refine ⟨?_, ?_, ?_, by decide, by decide⟩
  · exact congrArg Prod.snd (simpleAST_eq 0)
  · exact congrArg Prod.fst (simpleAST_eq 0)
  · have h2 : (simpleAST 0).2 = 5 := congrArg Prod.snd (simpleAST_eq 0)
    rw [h2]
    exact congrArg Prod.fst (simpleAST_eq 5)

/-- C8: `createChild` and `createWrapper` are pure — for all arguments they
return the counter state unchanged, and their result values do not depend on
the counter state at all. -/
theorem c8_pure_functions (p ch o code : String) (h h' : Nat) :
    (createChild p ch h o).2 = h ∧
    (createWrapper code h).2 = h ∧
    (createChild p ch h o).1 = (createChild p ch h' o).1 ∧
    (createWrapper code h).1 = (createWrapper code h').1 :=
  ⟨rfl, rfl, rfl, rfl⟩

/-- C9: every operation is total and performs no validation — for every
label (including one containing a double-quote), every identifier pair
(whether or not those identifiers were ever created), every options string
and every counter state, the operations return a result in which the inputs
are propagated verbatim; `simpleAST` likewise always returns a result. -/
theorem c9_total_no_validation (label p ch o code : String) (h : Nat) :
    (createNode label h).1.2 =
      (createNode label h).1.1 ++ " [label=\"" ++ label ++ "\",shape=circle]\n" ∧
    (createChild p ch h o).1 = p ++ " -> " ++ ch ++ o ++ "\n" ∧
    (createWrapper code h).1 = header ++ code ++ "\x7d" ∧
    (∃ s hh, simpleAST h = (s, hh)) ∧
    (createNode "a\"b" 0).1.2 = "x0 [label=\"a\"b\",shape=circle]\n" :=
  ⟨rfl, rfl, rfl, ⟨(simpleAST h).1, (simpleAST h).2, rfl⟩, by decide⟩

/-- C10: every identifier appearing as the source or target of an edge
fragment emitted by `simpleAST` is one of the five identifiers returned by
the five `createNode` calls made earlier in that same invocation. -/
theorem c10_edges_reference_created_ids (c : Nat) :
    (simpleAST c).1 =
      String.join (((simpleLines c).take 5).map asFragment
        ++ (edgePairs c).map fun pr => asFragment (edgeLine pr.1 pr.2)) ∧
    (∀ pr ∈ edgePairs c, pr.1 ∈ createdIds c ∧ pr.2 ∈ createdIds c) ∧
    createdIds c =
      [(createNode "-" c).1.1, (createNode "+" (c + 1)).1.1,
       (createNode "1" (c + 2)).1.1, (createNode "2" (c + 3)).1.1,
       (createNode "3" (c + 4)).1.1] := by
  refine ⟨?_, ?_, by simp [createdIds, createNode, nodeId]⟩
  · have : ((simpleLines c).take 5).map asFragment
        ++ (edgePairs c).map (fun pr => asFragment (edgeLine pr.1 pr.2))
        = simpleFrags c := by
      simp [simpleLines, edgePairs, simpleFrags]
    rw [this]
    exact congrArg Prod.fst (simpleAST_eq c)
  · intro pr hpr
    simp only [edgePairs, List.mem_cons, List.not_mem_nil, or_false] at hpr
    rcases hpr with rfl | rfl | rfl | rfl <;> simp [createdIds]

/-- Witness for C10 at counter 0 and the first edge pair. -/
theorem c10_edges_reference_created_ids_witness :
    (nodeId 0, nodeId 2) ∈ edgePairs 0 ∧
      nodeId 0 ∈ createdIds 0 ∧ nodeId 2 ∈ createdIds 0 :=
  ⟨by simp [edgePairs],
    (c10_edges_reference_created_ids 0).2.1 (nodeId 0, nodeId 2) (by simp [edgePairs])⟩

end AstParser
